import Mathlib

/-!
Shallow embedding of `src/Connector_Harwin.pretty/Harwin_LTek_Footprint.py`
(class `HarwinLtekFootprint`, method `printPins`).

Modelling decisions:
* Python floats in this program only ever hold dyadic rationals produced by
  exact operations (literals such as 1.35, multiplication by small integers,
  division by 2, negation, addition of 2.25), so every arithmetic step is
  exact and is embedded in `ℚ`.
* Each `self.padString.format(...)` call is embedded as a `Pad` record holding
  the values interpolated into the format slots.  `padID` is `none` for the
  anonymous (`""`) strain-relief pads and `some q` for a numbered pad; in the
  `rows == 2` paths Python computes the id as a float (`self.pins/2 + i + 1`)
  and the record keeps that exact rational value.  `drill` is `none` when the
  drill slot would be left empty and `some d` when the code fills in
  `(drill d)`.
* `raise` and the runtime `NameError` caused by the unbound name `mXCoord`
  (lines 151 and 180; the adjacent comments name the intended variable
  `myXCoord`) are embedded as `Except.error`: an exception discards the
  locally accumulated `myPins`, so a failing call yields no pads.
  The `raise Exception(...)` on line 140 signals the configuration error of
  the spec's error taxonomy and is embedded as `PyErr.configurationError`
  carrying the formatted message.
* The `while i < myPinsNum` loops (lines 142 and 171) run `i` over the
  integers from 0 while `i < myPinsNum` holds, `myPinsNum` being a rational
  (a float in Python); they are embedded as `whileLoop`, recursing on the
  same guard with a termination measure `⌈bound⌉ - i`.
-/

/-- The constructor arguments of `HarwinLtekFootprint.__init__`
    (pins, rows, pitch, vert, strain, smd). -/
structure ConnectorSpec where
  pins : Int
  rows : Int
  pitch : ℚ
  vert : Bool
  strain : Bool
  smd : Bool
deriving DecidableEq, Repr

/-- One formatted pad line: the values substituted into
    `padString = "(pad {padID} {thSMD} {padShape} (at {xCoord} {yCoord})
    (size {xSize} {ySize}) {drill} (layers {layers}))"`.
    `padID = none` stands for the anonymous id `""`. -/
structure Pad where
  padID : Option ℚ
  thSMD : String
  padShape : String
  xCoord : ℚ
  yCoord : ℚ
  xSize : ℚ
  ySize : ℚ
  drill : Option ℚ
  layers : String
deriving DecidableEq, Repr

/-- Class attribute `thPinDim = [1.35, 1.35, 0.8]`. -/
def thPinDim : List ℚ := [27/20, 27/20, 4/5]

/-- Class attribute `smdPadDim = [1.00, 3.20]` (defined on the class,
    never read by `printPins`). -/
def smdPadDim : List ℚ := [1, 16/5]

/-- Class attribute `strainPinDim = [1.5, 1.5, 0.95]`. -/
def strainPinDim : List ℚ := [3/2, 3/2, 19/20]

/-- Errors a `printPins` call can raise.  `configurationError` is the
    spec's name for the `raise Exception(...)` on line 140 (its message is
    the Python format result; note the code interpolates `self.pins` into
    the row-count slot).  `nameError` is the runtime `NameError` from
    evaluating an unbound local name. -/
inductive PyErr where
  | configurationError (msg : String)
  | nameError (name : String)
deriving DecidableEq, Repr

/-- Layer set `"F.Cu F.Paste F.Mask"` chosen when `self.smd` holds. -/
def smdLayers : String := "F.Cu F.Paste F.Mask"

/-- Layer set `"*.Cu *.Mask"` chosen on the through-hole branch. -/
def thLayers : String := "*.Cu *.Mask"

/-- Body of the SMD `while` loop (lines 142-147): the row-1 pad at
    `(i * pitch, 0)` and, when `rows == 2`, the extra pad with id
    `myPinsNum + i + 1` at `(0, pitch)`. -/
def smdStep (s : ConnectorSpec) (myPinsNum : ℚ) (i : Int) : List Pad :=
  [{ padID := some ((i : ℚ) + 1), thSMD := "smd", padShape := "rect",
     xCoord := (i : ℚ) * s.pitch, yCoord := 0,
     xSize := thPinDim.getD 0 0, ySize := thPinDim.getD 1 0,
     drill := some (thPinDim.getD 2 0), layers := smdLayers }] ++
  (if s.rows == 2 then
    [{ padID := some (myPinsNum + (i : ℚ) + 1), thSMD := "smd",
       padShape := "rect", xCoord := 0, yCoord := s.pitch,
       xSize := thPinDim.getD 0 0, ySize := thPinDim.getD 1 0,
       drill := some (thPinDim.getD 2 0), layers := smdLayers }]
   else [])

/-- Body of the through-hole `while` loop (lines 171-176): the row-1 pad
    (circle) at `(i * pitch, 0)` and, when `rows == 2`, the extra pad with
    id `myPinsNum + i + 1` at `(0, pitch)`. -/
def thStep (s : ConnectorSpec) (myPinsNum : ℚ) (i : Int) : List Pad :=
  [{ padID := some ((i : ℚ) + 1), thSMD := "thru_hole", padShape := "circle",
     xCoord := (i : ℚ) * s.pitch, yCoord := 0,
     xSize := thPinDim.getD 0 0, ySize := thPinDim.getD 1 0,
     drill := some (thPinDim.getD 2 0), layers := thLayers }] ++
  (if s.rows == 2 then
    [{ padID := some (myPinsNum + (i : ℚ) + 1), thSMD := "thru_hole",
       padShape := "circle", xCoord := 0, yCoord := s.pitch,
       xSize := thPinDim.getD 0 0, ySize := thPinDim.getD 1 0,
       drill := some (thPinDim.getD 2 0), layers := thLayers }]
   else [])

/-- `while i < myPinsNum:` with an integer counter against a rational
    bound, accumulating `step i` each iteration and incrementing `i`. -/
def whileLoop (step : Int → List Pad) (bound : ℚ) (i : Int) : List Pad :=
  if h : (i : ℚ) < bound then step i ++ whileLoop step bound (i + 1)
  else []
termination_by (Int.ceil bound - i).toNat
decreasing_by
  have hi : i < Int.ceil bound := Int.lt_ceil.mpr h
  omega

/-- The very first through-hole pad (line 164): id 1, rectangular,
    at `(0, 0)`. -/
def thPad1 : Pad :=
  { padID := some 1, thSMD := "thru_hole", padShape := "rect",
    xCoord := 0, yCoord := 0,
    xSize := thPinDim.getD 0 0, ySize := thPinDim.getD 1 0,
    drill := some (thPinDim.getD 2 0), layers := thLayers }

/-- The first SMD pad (line 137): id 1, rectangular, at `(0, 0)`. -/
def smdPad1 : Pad :=
  { padID := some 1, thSMD := "smd", padShape := "rect",
    xCoord := 0, yCoord := 0,
    xSize := thPinDim.getD 0 0, ySize := thPinDim.getD 1 0,
    drill := some (thPinDim.getD 2 0), layers := smdLayers }

/-- The pad appended on line 138 when `smd` and `rows == 2`: id
    `myPinsNum + i + 1` with `i = 0` and `myPinsNum = pins/2`, at
    `(0, pitch)`. -/
def smdRow2First (s : ConnectorSpec) : Pad :=
  { padID := some ((s.pins : ℚ) / 2 + 1), thSMD := "smd", padShape := "rect",
    xCoord := 0, yCoord := s.pitch,
    xSize := thPinDim.getD 0 0, ySize := thPinDim.getD 1 0,
    drill := some (thPinDim.getD 2 0), layers := smdLayers }

/-- The pad appended on line 168 when through-hole and `rows == 2`: id
    `myPinsNum + i + 1` with `i = 0` and `myPinsNum = pins/2`, at
    `(0, pitch)`, circular. -/
def thRow2First (s : ConnectorSpec) : Pad :=
  { padID := some ((s.pins : ℚ) / 2 + 1), thSMD := "thru_hole",
    padShape := "circle", xCoord := 0, yCoord := s.pitch,
    xSize := thPinDim.getD 0 0, ySize := thPinDim.getD 1 0,
    drill := some (thPinDim.getD 2 0), layers := thLayers }

/-- The message of the `raise Exception(...)` on line 140: note the code
    interpolates `self.pins`, not `self.rows`, into the row-count slot. -/
def smdRowsMsg (s : ConnectorSpec) : String :=
  "SMD vertical Harwin LTek connectors should only have 2 rows and not have "
    ++ toString s.pins ++ " row(s)"

/-- `HarwinLtekFootprint.printPins` (lines 109-191).  Returns the list of
    pad records in emission order, or the exception the call raises. -/
def printPins (s : ConnectorSpec) : Except PyErr (List Pad) :=
  if s.smd then
    if s.rows == 2 then
      let myPinsNum : ℚ := (s.pins : ℚ) / 2
      let myPins : List Pad :=
        [smdPad1, smdRow2First s] ++ whileLoop (smdStep s myPinsNum) myPinsNum 0
      if s.strain then
        Except.error (PyErr.nameError "mXCoord")
      else
        Except.ok myPins
    else
      Except.error (PyErr.configurationError (smdRowsMsg s))
  else
    let myPinsNum : ℚ := if s.rows == 2 then (s.pins : ℚ) / 2 else (s.pins : ℚ)
    let pre : List Pad :=
      [thPad1] ++ (if s.rows == 2 then [thRow2First s] else [])
    let myPins : List Pad := pre ++ whileLoop (thStep s myPinsNum) myPinsNum 0
    if s.strain then
      Except.error (PyErr.nameError "mXCoord")
    else
      Except.ok myPins

lemma whileLoop_of_le (step : Int → List Pad) (bound : ℚ) (i : Int)
    (h : bound ≤ (i : ℚ)) : whileLoop step bound i = [] := by
  rw [whileLoop]
  simp [not_lt.mpr h]

lemma whileLoop_of_lt (step : Int → List Pad) (bound : ℚ) (i : Int)
    (h : (i : ℚ) < bound) :
    whileLoop step bound i = step i ++ whileLoop step bound (i + 1) := by
  rw [whileLoop]
  simp [h]

/-- The loop starting at `i` with bound exactly `i + n` performs the `n`
    iterations `i, i+1, …, i+n-1`. -/
lemma whileLoop_eq_flatMap (step : Int → List Pad) :
    ∀ (n : ℕ) (i : Int) (bound : ℚ), bound = (i : ℚ) + (n : ℚ) →
      whileLoop step bound i
        = (List.range n).flatMap (fun k => step (i + (k : Int))) := by
  intro n
  induction n with
  | zero =>
      intro i bound hb
      subst hb
      rw [whileLoop_of_le]
      · simp
      · simp
  | succ n ih =>
      intro i bound hb
      subst hb
      have hlt : (i : ℚ) < (i : ℚ) + ((n + 1 : ℕ) : ℚ) := by
        have h0 : (0 : ℚ) ≤ (n : ℚ) := Nat.cast_nonneg n
        push_cast
        linarith
      rw [whileLoop_of_lt step _ i hlt, ih (i + 1) _ (by push_cast; ring)]
      rw [List.range_succ_eq_map]
      simp only [List.flatMap_cons, List.flatMap_map]
      congr 1
      · congr 1
        simp
      · congr 1
        funext k
        congr 1
        push_cast
        ring

lemma whileLoop_zero_eq (step : Int → List Pad) (n : ℕ) (bound : ℚ)
    (hb : bound = (n : ℚ)) :
    whileLoop step bound 0 = (List.range n).flatMap (fun k => step (k : Int)) := by
  have h := whileLoop_eq_flatMap step n 0 bound (by rw [hb]; norm_num)
  simpa using h

lemma printPins_smd_row2 (s : ConnectorSpec) (hsmd : s.smd = true)
    (hrows : s.rows = 2) (hstrain : s.strain = false) :
    printPins s = Except.ok
      ([smdPad1, smdRow2First s] ++
        whileLoop (smdStep s ((s.pins : ℚ) / 2)) ((s.pins : ℚ) / 2) 0) := by
  simp [printPins, hsmd, hrows, hstrain]

lemma printPins_smd_notrow2 (s : ConnectorSpec) (hsmd : s.smd = true)
    (hrows : s.rows ≠ 2) :
    printPins s = Except.error (PyErr.configurationError (smdRowsMsg s)) := by
  simp [printPins, hsmd, hrows]

lemma printPins_th_row2 (s : ConnectorSpec) (hsmd : s.smd = false)
    (hrows : s.rows = 2) (hstrain : s.strain = false) :
    printPins s = Except.ok
      ([thPad1, thRow2First s] ++
        whileLoop (thStep s ((s.pins : ℚ) / 2)) ((s.pins : ℚ) / 2) 0) := by
  simp [printPins, hsmd, hrows, hstrain]

lemma printPins_th_notrow2 (s : ConnectorSpec) (hsmd : s.smd = false)
    (hrows : s.rows ≠ 2) (hstrain : s.strain = false) :
    printPins s = Except.ok
      (thPad1 :: whileLoop (thStep s ((s.pins : ℚ))) ((s.pins : ℚ)) 0) := by
  simp [printPins, hsmd, hrows, hstrain]

lemma printPins_strain_th (s : ConnectorSpec) (hsmd : s.smd = false)
    (hstrain : s.strain = true) :
    printPins s = Except.error (PyErr.nameError "mXCoord") := by
  by_cases hrows : s.rows = 2 <;> simp [printPins, hsmd, hstrain, hrows]

lemma printPins_strain_smd (s : ConnectorSpec) (hsmd : s.smd = true)
    (hrows : s.rows = 2) (hstrain : s.strain = true) :
    printPins s = Except.error (PyErr.nameError "mXCoord") := by
  simp [printPins, hsmd, hrows, hstrain]

/-- Through-hole, single row, 2 pins, pitch 2, no strain relief:
    `HarwinLtekFootprint(pins=2, rows=1, pitch=2.0, strain=False, smd=False)`. -/
def specTH2 : ConnectorSpec :=
  { pins := 2, rows := 1, pitch := 2, vert := true, strain := false, smd := false }

/-- SMD, two rows, 4 pins, pitch 2, no strain relief. -/
def specSMD4 : ConnectorSpec :=
  { pins := 4, rows := 2, pitch := 2, vert := true, strain := false, smd := true }

/-- Through-hole, two rows, 4 pins, pitch 2, no strain relief. -/
def specTH4R2 : ConnectorSpec :=
  { pins := 4, rows := 2, pitch := 2, vert := true, strain := false, smd := false }

lemma printPins_specTH2_eval :
    printPins specTH2 = Except.ok
      [thPad1,
       { padID := some 1, thSMD := "thru_hole", padShape := "circle",
         xCoord := 0, yCoord := 0, xSize := 27/20, ySize := 27/20,
         drill := some (4/5), layers := thLayers },
       { padID := some 2, thSMD := "thru_hole", padShape := "circle",
         xCoord := 2, yCoord := 0, xSize := 27/20, ySize := 27/20,
         drill := some (4/5), layers := thLayers }] := by
  rw [printPins_th_notrow2 specTH2 rfl (by decide) rfl,
    whileLoop_zero_eq (thStep specTH2 ((specTH2.pins : ℚ)))
      2 ((specTH2.pins : ℚ)) (by norm_num [specTH2])]
  norm_num [List.range_succ, thStep, smdStep, specTH2, specSMD4, specTH4R2,
    thPad1, smdPad1, thRow2First, smdRow2First, thLayers, smdLayers, thPinDim,
    List.getD_cons_zero, List.getD_cons_succ]

lemma printPins_specSMD4_eval :
    printPins specSMD4 = Except.ok
      [smdPad1,
       { padID := some 3, thSMD := "smd", padShape := "rect",
         xCoord := 0, yCoord := 2, xSize := 27/20, ySize := 27/20,
         drill := some (4/5), layers := smdLayers },
       { padID := some 1, thSMD := "smd", padShape := "rect",
         xCoord := 0, yCoord := 0, xSize := 27/20, ySize := 27/20,
         drill := some (4/5), layers := smdLayers },
       { padID := some 3, thSMD := "smd", padShape := "rect",
         xCoord := 0, yCoord := 2, xSize := 27/20, ySize := 27/20,
         drill := some (4/5), layers := smdLayers },
       { padID := some 2, thSMD := "smd", padShape := "rect",
         xCoord := 2, yCoord := 0, xSize := 27/20, ySize := 27/20,
         drill := some (4/5), layers := smdLayers },
       { padID := some 4, thSMD := "smd", padShape := "rect",
         xCoord := 0, yCoord := 2, xSize := 27/20, ySize := 27/20,
         drill := some (4/5), layers := smdLayers }] := by
  rw [printPins_smd_row2 specSMD4 rfl rfl rfl,
    whileLoop_zero_eq (smdStep specSMD4 ((specSMD4.pins : ℚ) / 2))
      2 ((specSMD4.pins : ℚ) / 2) (by norm_num [specSMD4])]
  norm_num [List.range_succ, thStep, smdStep, specTH2, specSMD4, specTH4R2,
    thPad1, smdPad1, thRow2First, smdRow2First, thLayers, smdLayers, thPinDim,
    List.getD_cons_zero, List.getD_cons_succ]

lemma printPins_specTH4R2_eval :
    printPins specTH4R2 = Except.ok
      [thPad1,
       { padID := some 3, thSMD := "thru_hole", padShape := "circle",
         xCoord := 0, yCoord := 2, xSize := 27/20, ySize := 27/20,
         drill := some (4/5), layers := thLayers },
       { padID := some 1, thSMD := "thru_hole", padShape := "circle",
         xCoord := 0, yCoord := 0, xSize := 27/20, ySize := 27/20,
         drill := some (4/5), layers := thLayers },
       { padID := some 3, thSMD := "thru_hole", padShape := "circle",
         xCoord := 0, yCoord := 2, xSize := 27/20, ySize := 27/20,
         drill := some (4/5), layers := thLayers },
       { padID := some 2, thSMD := "thru_hole", padShape := "circle",
         xCoord := 2, yCoord := 0, xSize := 27/20, ySize := 27/20,
         drill := some (4/5), layers := thLayers },
       { padID := some 4, thSMD := "thru_hole", padShape := "circle",
         xCoord := 0, yCoord := 2, xSize := 27/20, ySize := 27/20,
         drill := some (4/5), layers := thLayers }] := by
  rw [printPins_th_row2 specTH4R2 rfl rfl rfl,
    whileLoop_zero_eq (thStep specTH4R2 ((specTH4R2.pins : ℚ) / 2))
      2 ((specTH4R2.pins : ℚ) / 2) (by norm_num [specTH4R2])]
  norm_num [List.range_succ, thStep, smdStep, specTH2, specSMD4, specTH4R2,
    thPad1, smdPad1, thRow2First, smdRow2First, thLayers, smdLayers, thPinDim,
    List.getD_cons_zero, List.getD_cons_succ]

/-- C1: refuted on the code.  At the through-hole spec
`pins=2, rows=1, pitch=2, strain=False, smd=False`, `printPins` returns
normally but emits two records with id 1 — the initial rectangular pad of
line 164 and the first loop iteration's circular pad (the loop counter
starts at 0 and re-emits id 1) — although every id-1 record does sit at
`(0, 0)`. -/
theorem printPins_specTH2_two_pads_with_id_one :
    ∃ l, printPins specTH2 = Except.ok l ∧
      (l.countP fun p => p.padID == some 1) = 2 ∧
      ∀ p ∈ l, p.padID = some 1 → p.xCoord = 0 ∧ p.yCoord = 0 := by
  refine ⟨_, printPins_specTH2_eval, ?_, ?_⟩
  · norm_num [List.countP_cons, beq_iff_eq, thPad1,
      List.getD_cons_zero, List.getD_cons_succ, thPinDim]
  · intro p hp
    fin_cases hp <;>
      norm_num [thPad1, List.getD_cons_zero, List.getD_cons_succ, thPinDim]

/-- C2: refuted on the code.  At the single-row through-hole spec with
`pinCount = 2` the output has three records, with id sequence `[1, 1, 2]`,
not the claimed two records with ids `1..2`: the pre-loop pad of line 164
duplicates the loop's first pad. -/
theorem printPins_specTH2_three_records :
    ∃ l, printPins specTH2 = Except.ok l ∧ l.length = 3 ∧
      l.filterMap Pad.padID = [1, 1, 2] := by
  refine ⟨_, printPins_specTH2_eval, by simp, ?_⟩
  norm_num [List.filterMap_cons, thPad1,
    List.getD_cons_zero, List.getD_cons_succ, thPinDim]

/-- C3: the code fails on every spec with strain relief enabled.  On both
the through-hole path (line 180) and the SMD two-row path (line 151) the
strain-relief block reads the unbound name `mXCoord` (the adjacent comment
names the intended variable `myXCoord`), so `printPins` raises a
`NameError` instead of appending the four anonymous pads. -/
theorem strainRelief_raises_nameError :
    printPins { pins := 2, rows := 1, pitch := 2, vert := true,
                strain := true, smd := false }
      = Except.error (PyErr.nameError "mXCoord") ∧
    printPins { pins := 4, rows := 2, pitch := 2, vert := true,
                strain := true, smd := true }
      = Except.error (PyErr.nameError "mXCoord") :=
  ⟨printPins_strain_th _ rfl rfl, printPins_strain_smd _ rfl rfl rfl⟩

/-- C4: for every spec with `surfaceMount=true` and `rowCount ≠ 2`,
`printPins` raises the configuration error of line 140 and returns no pad
list at all. -/
theorem smd_wrong_rows_configurationError (s : ConnectorSpec)
    (hsmd : s.smd = true) (hrows : s.rows ≠ 2) :
    printPins s = Except.error (PyErr.configurationError (smdRowsMsg s)) ∧
    ∀ l, printPins s ≠ Except.ok l := by
  have h := printPins_smd_notrow2 s hsmd hrows
  refine ⟨h, ?_⟩
  intro l hl
  rw [h] at hl
  exact Except.noConfusion hl

/-- Witness for C4 at `pins=3, rows=1, smd=True`. -/
theorem smd_wrong_rows_configurationError_witness :
    printPins { pins := 3, rows := 1, pitch := 2, vert := true,
                strain := false, smd := true }
      = Except.error (PyErr.configurationError
          (smdRowsMsg { pins := 3, rows := 1, pitch := 2, vert := true,
                        strain := false, smd := true })) ∧
    ∀ l, printPins { pins := 3, rows := 1, pitch := 2, vert := true,
                     strain := false, smd := true } ≠ Except.ok l :=
  smd_wrong_rows_configurationError _ rfl (by decide)

/-- C5: refuted on the code.  At the SMD spec `pins=4, rows=2`, every
emitted record is a numbered SMD pad and every one of them carries the
drill value 0.8 (`thPinDim[2]`), because lines 137-146 fill the drill slot
unconditionally; the claim that SMD numbered pads carry no drill fails. -/
theorem smd_numbered_pads_carry_drill :
    ∃ l, printPins specSMD4 = Except.ok l ∧ l ≠ [] ∧
      ∀ p ∈ l, p.thSMD = "smd" ∧ p.padID.isSome = true ∧ p.drill = some (4/5) := by
  refine ⟨_, printPins_specSMD4_eval, by simp, ?_⟩
  intro p hp
  fin_cases hp <;>
    norm_num [smdPad1, List.getD_cons_zero, List.getD_cons_succ, thPinDim]

/-- C6: refuted on the code.  At the SMD spec `pins=4, rows=2`, every
numbered pad is sized with the through-hole dimensions
`thPinDim = (1.35, 1.35)` — lines 137-146 read `self.thPinDim`, and the
class attribute `smdPadDim = (1.00, 3.20)` is never consulted. -/
theorem smd_numbered_pads_sized_thPinDim :
    ∃ l, printPins specSMD4 = Except.ok l ∧ l ≠ [] ∧
      (∀ p ∈ l, p.xSize = thPinDim.getD 0 0 ∧ p.ySize = thPinDim.getD 1 0) ∧
      ∀ p ∈ l, ¬(p.xSize = smdPadDim.getD 0 0 ∧ p.ySize = smdPadDim.getD 1 0) := by
  refine ⟨_, printPins_specSMD4_eval, by simp, ?_, ?_⟩
  · intro p hp
    fin_cases hp <;>
      norm_num [smdPad1, List.getD_cons_zero, List.getD_cons_succ, thPinDim]
  · intro p hp
    fin_cases hp <;>
      norm_num [smdPad1, List.getD_cons_zero, List.getD_cons_succ,
        thPinDim, smdPadDim]

/-- C7: at `rows=2, smd=False, pins=4, pitch=2, strain=False` the numbered
ids occurring in the output are exactly `{1, 2, 3, 4}`, and every record
with id 3 or id 4 (the second row) sits at `y = 2.0` — the second-row y
stays fixed at `pitch` for every emission rather than advancing. -/
theorem th_two_rows_four_pins_ids_and_row2_y :
    ∃ l, printPins specTH4R2 = Except.ok l ∧
      (l.filterMap Pad.padID).toFinset = ({1, 2, 3, 4} : Finset ℚ) ∧
      ∀ p ∈ l, (p.padID = some 3 ∨ p.padID = some 4) → p.yCoord = 2 := by
  refine ⟨_, printPins_specTH4R2_eval, ?_, ?_⟩
  · simp only [List.filterMap_cons, thPad1]
    ext q
    simp
    tauto
  · intro p hp
    fin_cases hp <;>
      norm_num [thPad1, List.getD_cons_zero, List.getD_cons_succ, thPinDim]

/-- C8: for every spec with `rowCount=2`, even `pinCount`, and no strain
relief (so `printPins` returns normally on both mount styles), the output
starts with the id-1 pad followed immediately by the second row's first
pad — id `pinCount/2 + 1` at `(0, pitch)` — and only then the while-loop's
pads. -/
theorem row2_first_pad_structure (s : ConnectorSpec)
    (hrows : s.rows = 2) (hstrain : s.strain = false)
    (heven : ∃ m : Int, s.pins = 2 * m) :
    ∃ p0 p1 tail, printPins s = Except.ok (p0 :: p1 :: tail) ∧
      p1.padID = some ((s.pins : ℚ) / 2 + 1) ∧
      p1.xCoord = 0 ∧ p1.yCoord = s.pitch ∧
      tail = whileLoop
        ((if s.smd then smdStep s else thStep s) ((s.pins : ℚ) / 2))
        ((s.pins : ℚ) / 2) 0 := by
  cases hsmd : s.smd with
  | false =>
      refine ⟨thPad1, thRow2First s,
        whileLoop (thStep s ((s.pins : ℚ) / 2)) ((s.pins : ℚ) / 2) 0,
        ?_, rfl, rfl, rfl, ?_⟩
      · have h := printPins_th_row2 s hsmd hrows hstrain
        simpa using h
      · simp [hsmd]
  | true =>
      refine ⟨smdPad1, smdRow2First s,
        whileLoop (smdStep s ((s.pins : ℚ) / 2)) ((s.pins : ℚ) / 2) 0,
        ?_, rfl, rfl, rfl, ?_⟩
      · have h := printPins_smd_row2 s hsmd hrows hstrain
        simpa using h
      · simp [hsmd]

/-- Witness for C8 at `pins=4, rows=2, pitch=2`, through-hole. -/
theorem row2_first_pad_structure_witness :
    ∃ p0 p1 tail, printPins specTH4R2 = Except.ok (p0 :: p1 :: tail) ∧
      p1.padID = some ((specTH4R2.pins : ℚ) / 2 + 1) ∧
      p1.xCoord = 0 ∧ p1.yCoord = specTH4R2.pitch ∧
      tail = whileLoop
        ((if specTH4R2.smd then smdStep specTH4R2 else thStep specTH4R2)
          ((specTH4R2.pins : ℚ) / 2))
        ((specTH4R2.pins : ℚ) / 2) 0 :=
  row2_first_pad_structure specTH4R2 rfl rfl ⟨2, rfl⟩

/-- C9: `printPins` never consults the `vert` flag, so two specs differing
only in `vert` produce identical results — the right-angle variant silently
reuses the vertical geometry. -/
theorem printPins_independent_of_vert (pins rows : Int) (pitch : ℚ)
    (v1 v2 strain smd : Bool) :
    printPins { pins := pins, rows := rows, pitch := pitch, vert := v1,
                strain := strain, smd := smd }
      = printPins { pins := pins, rows := rows, pitch := pitch, vert := v2,
                    strain := strain, smd := smd } := rfl

/-- C10 counterexample: the claim quantifies over every spec with
`surfaceMount=false` and `rowCount ≠ 2`, but with `strainRelief=true` such
a spec raises a `NameError` (unbound `mXCoord`), so "raises no error" is
false as stated. -/
theorem th_rows3_strain_raises :
    printPins { pins := 2, rows := 3, pitch := 2, vert := true,
                strain := true, smd := false }
      = Except.error (PyErr.nameError "mXCoord") :=
  printPins_strain_th _ rfl rfl

/-- C10 amended: with `strainRelief=false` in addition, every through-hole
spec whose `rowCount` is anything other than 2 (0, 3, negative, …) returns
normally and is laid out as a single row: the loop bound is the full
`pinCount` and every emitted pad has `y = 0`. -/
theorem th_other_rowcounts_single_row (s : ConnectorSpec)
    (hsmd : s.smd = false) (hrows : s.rows ≠ 2) (hstrain : s.strain = false) :
    ∃ l, printPins s = Except.ok l ∧
      l = thPad1 :: whileLoop (thStep s ((s.pins : ℚ))) ((s.pins : ℚ)) 0 ∧
      ∀ p ∈ l, p.yCoord = 0 := by
  refine ⟨_, printPins_th_notrow2 s hsmd hrows hstrain, rfl, ?_⟩
  intro p hp
  rcases List.mem_cons.mp hp with h | h
  · rw [h]
    rfl
  · rcases le_or_lt s.pins 0 with hle | hpos
    · rw [whileLoop_of_le _ _ _ (by exact_mod_cast hle)] at h
      simp at h
    · obtain ⟨n, hn⟩ : ∃ n : ℕ, s.pins = (n : Int) :=
        ⟨s.pins.toNat, (Int.toNat_of_nonneg hpos.le).symm⟩
      rw [whileLoop_eq_flatMap _ n 0 _ (by rw [hn]; push_cast; ring)] at h
      rcases List.mem_flatMap.mp h with ⟨k, hk, hpk⟩
      have hb : (s.rows == 2) = false := by
        simp [hrows]
      simp only [thStep, hb, Bool.false_eq_true, if_false,
        List.append_nil, List.mem_singleton] at hpk
      rw [hpk]

/-- Witness for the amended C10 at `pins=2, rows=3`. -/
theorem th_other_rowcounts_single_row_witness :
    ∃ l, printPins { pins := 2, rows := 3, pitch := 2, vert := true,
                     strain := false, smd := false } = Except.ok l ∧
      l = thPad1 ::
        whileLoop
          (thStep { pins := 2, rows := 3, pitch := 2, vert := true,
                    strain := false, smd := false }
            (((2 : Int) : ℚ))) (((2 : Int) : ℚ)) 0 ∧
      ∀ p ∈ l, p.yCoord = 0 :=
  th_other_rowcounts_single_row _ rfl (by decide) rfl
